import Mathlib

/-!
Shallow embedding of the OCR training-plan generator and adaptive rescheduler
from `script.js`, together with theorems about the behaviour of that code.

Modelling conventions:
* JavaScript numbers are modelled by `ℚ` (all arithmetic in the program stays
  on small decimal values); integer-valued quantities by `Int`/`Nat`.
* Dates are modelled by integers: `weeksBetween` works on millisecond
  timestamps exactly as the source does, and the adaptive rescheduler's
  day-walk is indexed by the whole-day offset from the plan start date
  (the upcoming Monday), with the log store viewed as a map from that
  offset to the entry logged on that calendar date (last write wins, as in
  the source's date-keyed map).
* `toFixed(1)` (format to one decimal, round half away from zero on the
  nonnegative values occurring here) is modelled by `roundTo1`; the
  mileage strings stored in a week are modelled by their numeric value,
  which is what the rescheduler parses back out of them.
* String literals reproduce the source bytes exactly, including U+2013
  (en dash), U+2011 (non-breaking hyphen) and U+00A0 (no-break space).
-/

/-- `weeksBetween(date1, date2)` from `script.js`: `max(1, floor((d2-d1)/msPerWeek))`
on millisecond timestamps. -/
def msPerWeek : Int := 1000 * 60 * 60 * 24 * 7

def weeksBetween (date1 date2 : Int) : Int :=
  max 1 ((date2 - date1).fdiv msPerWeek)

/-- The four phase-length counters of `generatePlan`.  `build` is an `Int`
because the source computes it by subtraction and never clamps it. -/
structure PhaseCounts where
  baseWeeks : Int
  buildWeeks : Int
  specificWeeks : Int
  taperWeeks : Int
deriving DecidableEq, Repr

/-- Phase-length lookup of `generatePlan` (lines 23-45 of `script.js`). -/
def phaseLengths (weeksToRace : Nat) : PhaseCounts :=
  if weeksToRace < 8 then
    { baseWeeks := 2, taperWeeks := 1, specificWeeks := 1,
      buildWeeks := (weeksToRace : Int) - 2 - 1 - 1 }
  else if weeksToRace < 12 then
    { baseWeeks := 3, taperWeeks := 1, specificWeeks := 2,
      buildWeeks := (weeksToRace : Int) - 3 - 2 - 1 }
  else if weeksToRace < 20 then
    { baseWeeks := 4, taperWeeks := 1, specificWeeks := 3,
      buildWeeks := (weeksToRace : Int) - 4 - 3 - 1 }
  else
    { baseWeeks := 6, taperWeeks := 2, specificWeeks := 5,
      buildWeeks := (weeksToRace : Int) - 6 - 5 - 2 }

/-- Phase of week index `w` (0-based), from the cumulative comparisons of
lines 104-108 of `script.js`. -/
def phaseOf (c : PhaseCounts) (w : Nat) : String :=
  if (w : Int) < c.baseWeeks then "Base"
  else if (w : Int) < c.baseWeeks + c.buildWeeks then "Build"
  else if (w : Int) < c.baseWeeks + c.buildWeeks + c.specificWeeks then "Specific"
  else "Taper"

/-! Fixed description texts (verbatim from `script.js`). -/

def easyRunText : String :=
  "Easy run – stay at conversational pace (RPE 3–4)."

def tempoRunText : String :=
  "Tempo run – moderate pace (RPE 5–6)."

def intervalText : String :=
  "Interval or hill session – short bursts at RPE 6–7 with recovery jogs."

def raceSpecificText : String :=
  "Race‑specific run – include carries or obstacles and maintain RPE 5–7."

def sharpeningText : String :=
  "Short sharpening run – brief bursts at RPE 6, mostly easy."

def baseStrengthText : String :=
  "General strength circuit – squats, push‑ups, lunges, core exercises."

def buildStrengthText : String :=
  "Full‑body strength with added grip work – deadlifts, pull‑ups, presses."

def specificStrengthText : String :=
  "Obstacle strength & carries – rope climbs, sandbag/bucket carries, rig practice."

def taperStrengthText : String :=
  "Light strength & mobility – keep muscles activated but prioritise recovery."

def recoveryText : String :=
  "Active recovery/mobility – gentle stretching or yoga."

def restText : String := "Rest day."

/-- `generateRunDesc(isHard, phase)` from `script.js`. -/
def generateRunDesc (isHard : Bool) (phase : String) : String :=
  if !isHard then easyRunText
  else if phase = "Base" then tempoRunText
  else if phase = "Build" then intervalText
  else if phase = "Specific" then raceSpecificText
  else sharpeningText

/-- `generateStrengthDesc(phase)` from `script.js`. -/
def generateStrengthDesc (phase : String) : String :=
  if phase = "Base" then baseStrengthText
  else if phase = "Build" then buildStrengthText
  else if phase = "Specific" then specificStrengthText
  else taperStrengthText

/-! Input coercions.  The raw form values are modelled as `Option` (with
`none` standing for a missing or unparseable value, i.e. a `NaN` result of
`parseFloat`/`parseInt`); `x || default` replaces both `NaN` and `0`. -/

/-- `Math.max(0, parseFloat(data.runningMileage) || 0)` (line 48). -/
def coerceMiles (x : Option ℚ) : ℚ := max 0 (x.getD 0)

/-- `parseInt(data.trainingDays, 10) || 3` (line 98). -/
def coerceTrainingDays (x : Option Int) : Int :=
  match x with
  | none => 3
  | some v => if v = 0 then 3 else v

/-- `parseInt(data.strengthFrequency, 10) || 1` (line 99). -/
def coerceStrengthFreq (x : Option Int) : Int :=
  match x with
  | none => 1
  | some v => if v = 0 then 1 else v

/-- The athlete inputs consumed by `generatePlan` (the race date itself is
passed separately as a timestamp). -/
structure AthleteInput where
  raceDistance : String
  experience : String
  runningMileage : Option ℚ
  trainingDays : Option Int
  strengthFrequency : Option Int
deriving DecidableEq

/-- Peak-volume multiplier by race distance (lines 54-58). -/
def peakMultiplier (raceDistance : String) : ℚ :=
  if raceDistance = "5k" then 3 / 2
  else if raceDistance = "10k" then 9 / 5
  else if raceDistance = "21k" then 11 / 5
  else 3

/-- Weekly growth rate by experience (line 63). -/
def growthRate (experience : String) : ℚ :=
  if experience = "beginner" then 8 / 100
  else if experience = "intermediate" then 10 / 100
  else 12 / 100

/-- The mileage-progression loop of lines 60-65: push the current value,
then step to `min(targetPeak, current * (1 + inc))`. -/
def mileageSeq (peak rate : ℚ) : ℚ → Nat → List ℚ
  | _, 0 => []
  | current, n + 1 => current :: mileageSeq peak rate (min peak (current * (1 + rate))) n

/-- The `weeklyMiles` array computed by `generatePlan` for a given athlete
input and week count. -/
def weeklyMilesOf (data : AthleteInput) (weeks : Nat) : List ℚ :=
  mileageSeq (max (coerceMiles data.runningMileage * peakMultiplier data.raceDistance) 10)
    (growthRate data.experience) (coerceMiles data.runningMileage) weeks

/-- `toFixed(1)` on the nonnegative values of this program: round to the
nearest tenth (ties away from zero, which for `round` on nonnegative
arguments is ties upward, matching the ECMAScript rule of picking the
larger candidate). -/
def roundTo1 (q : ℚ) : ℚ := (round (q * 10) : ℚ) / 10

/-- The day-assignment loop of lines 124-138, one step per remaining day.
`d` is the current day index, `rc`/`sc`/`hu` the `runCount`,
`strengthCount` and `hardRunUsed` counters. -/
def fillDays (phase : String) (runDays strengthDays trainingDays hardRuns : Int) :
    Nat → Int → Int → Int → Int → List String
  | 0, _, _, _, _ => []
  | fuel + 1, d, rc, sc, hu =>
    if rc < runDays then
      let isHard : Bool :=
        decide (hu < hardRuns) && decide (runDays - rc ≤ hardRuns - hu + (7 - d))
      generateRunDesc isHard phase ::
        fillDays phase runDays strengthDays trainingDays hardRuns fuel (d + 1) (rc + 1) sc
          (if isHard then hu + 1 else hu)
    else if sc < strengthDays then
      generateStrengthDesc phase ::
        fillDays phase runDays strengthDays trainingDays hardRuns fuel (d + 1) rc (sc + 1) hu
    else if d < trainingDays then
      recoveryText ::
        fillDays phase runDays strengthDays trainingDays hardRuns fuel (d + 1) rc sc hu
    else
      restText ::
        fillDays phase runDays strengthDays trainingDays hardRuns fuel (d + 1) rc sc hu

/-- `Math.max(1, Math.round(trainingDays * 0.6))` (line 112); `Math.round`
is floor of the argument plus one half. -/
def runDaysOf (trainingDays : Int) : Int :=
  max 1 (round ((trainingDays : ℚ) * (6 / 10)))

/-- The 7-day assignment of one week (lines 110-138): `runDays`,
`strengthDays` and `hardRuns` are computed exactly as in the source, then
the Monday-to-Sunday loop runs for 7 days. -/
def assignWeekDays (phase : String) (trainingDays strengthFreq : Int) : List String :=
  let runDays : Int := runDaysOf trainingDays
  let strengthDays : Int := min strengthFreq (trainingDays - runDays)
  let hardRuns : Int := if 4 ≤ trainingDays then 1 else 0
  fillDays phase runDays strengthDays trainingDays hardRuns 7 0 0 0 0

/-- One entry of `plan.weeks`; `mileage` holds the numeric value of the
one-decimal string stored by the source. -/
structure WeekEntry where
  week : Nat
  phase : String
  mileage : ℚ
  days : List String
deriving DecidableEq

/-- The object returned by `generatePlan`. -/
structure Plan where
  weeks : List WeekEntry
  phases : PhaseCounts
  weeksToRace : Nat
deriving DecidableEq

/-- `generatePlan(data)` (lines 17-151), with the two dates it reads from
the clock and the form passed explicitly as millisecond timestamps. -/
def generatePlan (today raceDate : Int) (data : AthleteInput) : Plan :=
  let weeksToRace : Nat := (weeksBetween today raceDate).toNat
  let counts := phaseLengths weeksToRace
  let trainingDays := coerceTrainingDays data.trainingDays
  let strengthFreq := coerceStrengthFreq data.strengthFrequency
  let miles := weeklyMilesOf data weeksToRace
  { weeks := miles.enum.map fun pr =>
      { week := pr.1 + 1
        phase := phaseOf counts pr.1
        mileage := roundTo1 pr.2
        days := assignWeekDays (phaseOf counts pr.1) trainingDays strengthFreq }
    phases := counts
    weeksToRace := weeksToRace }

/-! ## Adaptive rescheduler (`adaptPlan`, lines 276-379) -/

/-- The part of a stored log entry that `adaptPlan` consumes: `none` for an
`rpe` field whose `parseFloat` is `NaN`, otherwise the parsed value. -/
structure LogEntry where
  rpe : Option ℚ
deriving DecidableEq

/-- The accumulator of the day-walk of lines 306-335. -/
structure AdaptStats where
  lastLoggedWeekIndex : Int
  completedSessions : Nat
  totalDaysPassed : Nat
  totalRPE : ℚ
deriving DecidableEq

/-- One iteration of the day-walk, for day offset `i` from the start date. -/
def statsStep (logMap : Nat → Option LogEntry) (st : AdaptStats) (i : Nat) : AdaptStats :=
  let st1 :=
    match logMap i with
    | some entry =>
      { st with
        completedSessions := st.completedSessions + 1
        totalRPE := st.totalRPE + (match entry.rpe with | some r => r | none => 0)
        lastLoggedWeekIndex := max st.lastLoggedWeekIndex ((i / 7 : Nat) : Int) }
    | none => st
  { st1 with totalDaysPassed := st1.totalDaysPassed + 1 }

/-- Number of iterations of the walk `for (d = startDate; d <= now && d < endDate; ...)`:
the day offsets `i ≥ 0` with `i ≤ t` and `i < 7 * weekCount`, where `t` is the
whole-day offset of the current date from the start date (negative while the
plan has not started). -/
def numDaysWalked (t : Int) (weekCount : Nat) : Nat :=
  (min (t + 1) (7 * (weekCount : Int))).toNat

/-- The statistics accumulated by lines 306-335. -/
def computeStats (logMap : Nat → Option LogEntry) (t : Int) (weekCount : Nat) : AdaptStats :=
  (List.range (numDaysWalked t weekCount)).foldl (statsStep logMap)
    { lastLoggedWeekIndex := -1, completedSessions := 0, totalDaysPassed := 0, totalRPE := 0 }

inductive AdaptMode where
  | lighten
  | intensify
  | noChange
deriving DecidableEq

/-- The mode decision of lines 342-347 (`completionRatio` and `avgRPE` are
passed in already divided). -/
def selectMode (completionFrac avgRPE : ℚ) : AdaptMode :=
  if completionFrac < 1 / 2 ∨ 6 ≤ avgRPE then .lighten
  else if 4 / 5 ≤ completionFrac ∧ avgRPE ≤ 4 then .intensify
  else .noChange

/-- Case-insensitive check that `pat` occurs in `s` as a contiguous
substring: the semantics of `/pat/i.test(s)` for a literal alternative. -/
def leadsWith : List Char → List Char → Bool
  | _, [] => true
  | [], _ :: _ => false
  | c :: cs, p :: ps => c = p && leadsWith cs ps

def containsSeq : List Char → List Char → Bool
  | [], pat => pat.isEmpty
  | c :: cs, pat => leadsWith (c :: cs) pat || containsSeq cs pat

def containsCI (s pat : String) : Bool :=
  containsSeq (s.data.map Char.toLower) (pat.data.map Char.toLower)

/-- `/Interval|Tempo|race‑specific|short/i.test(desc)` (line 365). -/
def lightenTest (desc : String) : Bool :=
  containsCI desc "Interval" || containsCI desc "Tempo" ||
    containsCI desc "race‑specific" || containsCI desc "short"

/-- `/Easy run|Active recovery|Rest day|mobility/i.test(desc)` (line 371). -/
def intensifyTest (desc : String) : Bool :=
  containsCI desc "Easy run" || containsCI desc "Active recovery" ||
    containsCI desc "Rest day" || containsCI desc "mobility"

/-- The day-substitution loop of lines 360-376, carrying the `modified` flag. -/
def substituteDays (test : String → Bool) (repl : String) :
    List String → Bool → List String
  | [], _ => []
  | desc :: rest, modified =>
    if test desc && !modified then repl :: substituteDays test repl rest true
    else desc :: substituteDays test repl rest modified

/-- The pattern used for the given mode. -/
def modeTest (mode : AdaptMode) : String → Bool :=
  match mode with
  | .lighten => lightenTest
  | _ => intensifyTest

/-- The replacement text used for the given mode. -/
def modeRepl (mode : AdaptMode) : String :=
  match mode with
  | .lighten => recoveryText
  | _ => intervalText

/-- `factor = mode === 'lighten' ? 0.9 : 1.1` (line 356). -/
def modeFactor (mode : AdaptMode) : ℚ :=
  match mode with
  | .lighten => 9 / 10
  | _ => 11 / 10

/-- Mutation of one upcoming week (lines 352-376): scale the mileage and
substitute at most one day. -/
def adaptWeek (mode : AdaptMode) (wk : WeekEntry) : WeekEntry :=
  { wk with
    mileage := roundTo1 (wk.mileage * modeFactor mode)
    days := substituteDays (modeTest mode) (modeRepl mode) wk.days false }

/-- The week loop of lines 350-378: weeks with 0-based index strictly
greater than `lastLoggedWeekIndex` are adapted, the rest kept. -/
def adaptWeeks (mode : AdaptMode) (lastIdx : Int) : Nat → List WeekEntry → List WeekEntry
  | _, [] => []
  | w, wk :: rest =>
    (if lastIdx < (w : Int) then adaptWeek mode wk else wk) ::
      adaptWeeks mode lastIdx (w + 1) rest

/-- `completionRatio = completedSessions / totalDaysPassed` (line 339). -/
def completionOf (st : AdaptStats) : ℚ :=
  (st.completedSessions : ℚ) / (st.totalDaysPassed : ℚ)

/-- `avgRPE = totalRPE / completedSessions` (line 340). -/
def avgRPEOf (st : AdaptStats) : ℚ :=
  st.totalRPE / (st.completedSessions : ℚ)

/-- `adaptPlan(plan)` (lines 276-379) as a function on the plan copy.
`logMap` maps the day offset from the plan start date to the entry logged
on that date (if any); `t` is the whole-day offset of the current date. -/
def adaptPlan (logMap : Nat → Option LogEntry) (t : Int) (plan : Plan) : Plan :=
  let st := computeStats logMap t plan.weeks.length
  if st.totalDaysPassed = 0 ∨ st.completedSessions = 0 then plan
  else
    let mode := selectMode (completionOf st) (avgRPEOf st)
    if mode = .noChange then plan
    else { plan with weeks := adaptWeeks mode st.lastLoggedWeekIndex 0 plan.weeks }

/-- The overall decision `adaptPlan` acts on: `noChange` when the guard of
line 336 fires or the mode of lines 342-347 is `none`. -/
def effectiveMode (logMap : Nat → Option LogEntry) (t : Int) (weekCount : Nat) : AdaptMode :=
  let st := computeStats logMap t weekCount
  if st.totalDaysPassed = 0 ∨ st.completedSessions = 0 then .noChange
  else selectMode (completionOf st) (avgRPEOf st)

/-! ## Calendar exporter: event summary (lines 452-461) -/

/-- `desc.indexOf(ch)`: index of the first occurrence of a character. -/
def charIdx : List Char → Char → Option Nat
  | [], _ => none
  | c :: cs, ch => if c = ch then some 0 else (charIdx cs ch).map (· + 1)

/-- The character searched for by `desc.indexOf('–')`: U+2013, an en dash. -/
def enDash : Char := '–'

/-- `String.prototype.trim` on a character list. -/
def trimChars (cs : List Char) : List Char :=
  ((cs.dropWhile Char.isWhitespace).reverse.dropWhile Char.isWhitespace).reverse

/-- The event summary computed by `downloadCalendar` (lines 452-461):
take the text before the first en dash, trim it, and fall back to the whole
description when there is no dash or the trimmed prefix text is empty. -/
def exportSummary (desc : String) : String :=
  match charIdx desc.data enDash with
  | none => desc
  | some i =>
    let trimmed := String.mk (trimChars (desc.data.take i))
    if trimmed = "" then desc else trimmed

/-- Modelled from the claim's words, for comparison with `exportSummary`:
the text preceding the first en dash of the description, the whole
description when it contains none. -/
def textBeforeDash (desc : String) : String :=
  match charIdx desc.data enDash with
  | none => desc
  | some i => String.mk (desc.data.take i)

/-! ## Helper notions and lemmas -/

/-- Replace the first element satisfying `test` by `repl` (the observable
effect of the `modified`-flag loop). -/
def replFirst (test : String → Bool) (repl : String) : List String → List String
  | [] => []
  | d :: rest => if test d then repl :: rest else d :: replFirst test repl rest

/-- Number of positions at which two lists differ. -/
def countDiff (a b : List String) : Nat :=
  (List.zipWith (fun x y => if x = y then (0 : Nat) else 1) a b).sum

theorem countDiff_cons (x y : String) (a b : List String) :
    countDiff (x :: a) (y :: b) = (if x = y then 0 else 1) + countDiff a b := by
  simp [countDiff, List.zipWith]

theorem countDiff_self (l : List String) : countDiff l l = 0 := by
  induction l with
  | nil => rfl
  | cons d rest ih => rw [countDiff_cons, if_pos rfl, ih]

theorem countDiff_replFirst (test : String → Bool) (repl : String) (l : List String) :
    countDiff (replFirst test repl l) l ≤ 1 := by
  induction l with
  | nil => simp [replFirst, countDiff]
  | cons d rest ih =>
    cases htd : test d with
    | true =>
      simp only [replFirst, htd, if_true]
      rw [countDiff_cons, countDiff_self]
      split <;> omega
    | false =>
      simp only [replFirst, htd, Bool.false_eq_true, if_false]
      rw [countDiff_cons, if_pos rfl]
      omega

theorem replFirst_no_match (test : String → Bool) (repl : String) (l : List String)
    (h : ∀ d ∈ l, test d = false) : replFirst test repl l = l := by
  induction l with
  | nil => rfl
  | cons d rest ih =>
    have hd := h d (by simp)
    simp only [replFirst, hd, Bool.false_eq_true, if_false]
    rw [ih fun x hx => h x (by simp [hx])]

theorem substituteDays_true (test : String → Bool) (repl : String) (l : List String) :
    substituteDays test repl l true = l := by
  induction l with
  | nil => rfl
  | cons d rest ih => simp [substituteDays, ih]

theorem substituteDays_false (test : String → Bool) (repl : String) (l : List String) :
    substituteDays test repl l false = replFirst test repl l := by
  induction l with
  | nil => rfl
  | cons d rest ih =>
    by_cases h : test d
    · simp [substituteDays, replFirst, h, substituteDays_true]
    · simp [substituteDays, replFirst, h, ih]

theorem adaptWeeks_length (mode : AdaptMode) (lastIdx : Int) (w0 : Nat) (l : List WeekEntry) :
    (adaptWeeks mode lastIdx w0 l).length = l.length := by
  induction l generalizing w0 with
  | nil => rfl
  | cons wk rest ih => simp [adaptWeeks, ih]

theorem adaptWeeks_getElem? (mode : AdaptMode) (lastIdx : Int) (l : List WeekEntry) :
    ∀ (w0 k : Nat),
      (adaptWeeks mode lastIdx w0 l)[k]? =
        (l[k]?).map fun wk =>
          if lastIdx < ((w0 + k : Nat) : Int) then adaptWeek mode wk else wk := by
  induction l with
  | nil => intro w0 k; simp [adaptWeeks]
  | cons wk rest ih =>
    intro w0 k
    cases k with
    | zero => simp [adaptWeeks]
    | succ k =>
      simp only [adaptWeeks, List.getElem?_cons_succ]
      rw [ih (w0 + 1) k]
      have : w0 + 1 + k = w0 + (k + 1) := by omega
      rw [this]

theorem adaptPlan_eq_modeCase (lm : Nat → Option LogEntry) (t : Int) (p : Plan) :
    adaptPlan lm t p =
      if effectiveMode lm t p.weeks.length = .noChange then p
      else { p with
              weeks := adaptWeeks (effectiveMode lm t p.weeks.length)
                (computeStats lm t p.weeks.length).lastLoggedWeekIndex 0 p.weeks } := by
  rw [adaptPlan, effectiveMode]
  by_cases hg : (computeStats lm t p.weeks.length).totalDaysPassed = 0 ∨
      (computeStats lm t p.weeks.length).completedSessions = 0
  · simp [hg]
  · simp only [hg, if_false]

theorem adaptPlan_of_noChange (lm : Nat → Option LogEntry) (t : Int) (p : Plan)
    (h : effectiveMode lm t p.weeks.length = .noChange) : adaptPlan lm t p = p := by
  rw [adaptPlan_eq_modeCase, if_pos h]

theorem mileageSeq_length (peak rate : ℚ) (n : Nat) :
    ∀ s, (mileageSeq peak rate s n).length = n := by
  induction n with
  | zero => intro s; rfl
  | succ n ih => intro s; simp [mileageSeq, ih]

theorem mileageSeq_le_peak (peak rate : ℚ) (hr : 0 ≤ rate) (hp : 0 ≤ peak) (n : Nat) :
    ∀ s, 0 ≤ s → s ≤ peak → ∀ x ∈ mileageSeq peak rate s n, x ≤ peak := by
  induction n with
  | zero => intro s _ _ x hx; simp [mileageSeq] at hx
  | succ n ih =>
    intro s hs0 hsp x hx
    simp only [mileageSeq, List.mem_cons] at hx
    rcases hx with rfl | hx
    · exact hsp
    · exact ih (min peak (s * (1 + rate)))
        (le_min hp (mul_nonneg hs0 (by linarith))) (min_le_left _ _) x hx

theorem mileageSeq_chain (peak rate : ℚ) (hr : 0 ≤ rate) (n : Nat) :
    ∀ s, 0 ≤ s → s ≤ peak → List.Chain' (· ≤ ·) (mileageSeq peak rate s n) := by
  induction n with
  | zero => intro s _ _; simp [mileageSeq]
  | succ n ih =>
    intro s hs0 hsp
    have hp : 0 ≤ peak := le_trans hs0 hsp
    have hstep : 0 ≤ min peak (s * (1 + rate)) :=
      le_min hp (mul_nonneg hs0 (by linarith))
    rw [mileageSeq, List.chain'_cons']
    refine ⟨?_, ih _ hstep (min_le_left _ _)⟩
    intro h hh
    cases n with
    | zero => simp [mileageSeq] at hh
    | succ m =>
      rw [show mileageSeq peak rate (min peak (s * (1 + rate))) (m + 1) =
          min peak (s * (1 + rate)) ::
            mileageSeq peak rate
              (min peak (min peak (s * (1 + rate)) * (1 + rate))) m from rfl] at hh
      simp only [List.head?_cons, Option.mem_def, Option.some.injEq] at hh
      subst hh
      exact le_min hsp (le_mul_of_one_le_right hs0 (by linarith))

theorem foldl_statsStep_none (lm : Nat → Option LogEntry) (m : Nat)
    (h : ∀ i, i < m → lm i = none) (init : AdaptStats) :
    (List.range m).foldl (statsStep lm) init =
      { init with totalDaysPassed := init.totalDaysPassed + m } := by
  induction m with
  | zero => simp
  | succ m ih =>
    rw [List.range_succ, List.foldl_append, ih fun i hi => h i (by omega)]
    simp only [List.foldl_cons, List.foldl_nil, statsStep, h m (by omega)]
    rfl

theorem computeStats_all_none (lm : Nat → Option LogEntry) (t : Int) (n : Nat)
    (h : ∀ i, i < numDaysWalked t n → lm i = none) :
    computeStats lm t n =
      { lastLoggedWeekIndex := -1, completedSessions := 0,
        totalDaysPassed := numDaysWalked t n, totalRPE := 0 } := by
  rw [computeStats, foldl_statsStep_none lm _ h]
  simp

/-! ## Concrete example data used by witnesses and counterexamples -/

/-- A log store with a single entry on the plan's first day (Monday of week
one) reporting RPE 7. -/
def exLog : Nat → Option LogEntry := fun i => if i = 0 then some { rpe := some 7 } else none

/-- The empty log store. -/
def emptyLog : Nat → Option LogEntry := fun _ => none

/-- A two-week plan copy with weekly mileage 10 and all-rest days. -/
def exPlan : Plan :=
  { weeks :=
      [{ week := 1, phase := "Base", mileage := 10, days := List.replicate 7 restText },
       { week := 2, phase := "Build", mileage := 10, days := List.replicate 7 restText }],
    phases := { baseWeeks := 2, buildWeeks := 0, specificWeeks := 0, taperWeeks := 0 },
    weeksToRace := 2 }

theorem exStats : computeStats exLog 1 2 =
    { lastLoggedWeekIndex := 0, completedSessions := 1, totalDaysPassed := 2, totalRPE := 7 } := by
  rw [computeStats, show numDaysWalked 1 2 = 2 from rfl, show List.range 2 = [0, 1] from rfl]
  simp [statsStep, exLog]

theorem exModeEval : effectiveMode exLog 1 2 = .lighten := by
  simp only [effectiveMode, exStats]
  norm_num [selectMode, completionOf, avgRPEOf]

theorem roundTo1_eval (q : ℚ) (n : ℤ) (h1 : (n : ℚ) ≤ q * 10 + 1 / 2)
    (h2 : q * 10 + 1 / 2 < (n : ℚ) + 1) : roundTo1 q = (n : ℚ) / 10 := by
  rw [roundTo1, round_eq, Int.floor_eq_iff.mpr ⟨h1, h2⟩]

theorem runDaysOf_eval (td n : Int) (h1 : (n : ℚ) ≤ (td : ℚ) * (6 / 10) + 1 / 2)
    (h2 : (td : ℚ) * (6 / 10) + 1 / 2 < (n : ℚ) + 1) (h3 : 1 ≤ n) :
    runDaysOf td = n := by
  rw [runDaysOf, round_eq, Int.floor_eq_iff.mpr ⟨h1, h2⟩, max_eq_right h3]

theorem substRest :
    substituteDays lightenTest recoveryText (List.replicate 7 restText) false =
      List.replicate 7 restText := by decide

theorem roundTo1_nine : roundTo1 ((10 : ℚ) * (9 / 10)) = 9 := by
  rw [roundTo1_eval _ 90 (by norm_num) (by norm_num)]; norm_num

theorem roundTo1_eightOne : roundTo1 ((9 : ℚ) * (9 / 10)) = 81 / 10 := by
  rw [roundTo1_eval _ 81 (by norm_num) (by norm_num)]; norm_num

/-- `exPlan` after one lightening pass: only week 2 is mutated, and only its
mileage (its all-rest days match no lighten pattern). -/
def exPlanA : Plan :=
  { weeks :=
      [{ week := 1, phase := "Base", mileage := 10, days := List.replicate 7 restText },
       { week := 2, phase := "Build", mileage := 9, days := List.replicate 7 restText }],
    phases := { baseWeeks := 2, buildWeeks := 0, specificWeeks := 0, taperWeeks := 0 },
    weeksToRace := 2 }

/-- `exPlanA` after a second lightening pass: week 2's mileage shrinks again. -/
def exPlanB : Plan :=
  { weeks :=
      [{ week := 1, phase := "Base", mileage := 10, days := List.replicate 7 restText },
       { week := 2, phase := "Build", mileage := 81 / 10, days := List.replicate 7 restText }],
    phases := { baseWeeks := 2, buildWeeks := 0, specificWeeks := 0, taperWeeks := 0 },
    weeksToRace := 2 }

theorem exAdaptWeek1 :
    adaptWeek .lighten
        { week := 2, phase := "Build", mileage := 10, days := List.replicate 7 restText } =
      { week := 2, phase := "Build", mileage := 9, days := List.replicate 7 restText } := by
  rw [adaptWeek]
  simp only [modeFactor, modeTest, modeRepl]
  rw [substRest, roundTo1_nine]

theorem exAdaptWeek2 :
    adaptWeek .lighten
        { week := 2, phase := "Build", mileage := 9, days := List.replicate 7 restText } =
      { week := 2, phase := "Build", mileage := 81 / 10, days := List.replicate 7 restText } := by
  rw [adaptWeek]
  simp only [modeFactor, modeTest, modeRepl]
  rw [substRest, roundTo1_eightOne]

theorem exAdapt1 : adaptPlan exLog 1 exPlan = exPlanA := by
  rw [adaptPlan_eq_modeCase, show exPlan.weeks.length = 2 from rfl, exModeEval, exStats,
    if_neg (by decide : ¬ (AdaptMode.lighten = AdaptMode.noChange))]
  rw [show exPlan.weeks =
      [{ week := 1, phase := "Base", mileage := 10, days := List.replicate 7 restText },
       { week := 2, phase := "Build", mileage := 10,
         days := List.replicate 7 restText }] from rfl]
  simp only [adaptWeeks]
  norm_num [exAdaptWeek1]
  rfl

theorem exAdapt2 : adaptPlan exLog 1 exPlanA = exPlanB := by
  rw [adaptPlan_eq_modeCase, show exPlanA.weeks.length = 2 from rfl, exModeEval, exStats,
    if_neg (by decide : ¬ (AdaptMode.lighten = AdaptMode.noChange))]
  rw [show exPlanA.weeks =
      [{ week := 1, phase := "Base", mileage := 10, days := List.replicate 7 restText },
       { week := 2, phase := "Build", mileage := 9,
         days := List.replicate 7 restText }] from rfl]
  simp only [adaptWeeks]
  norm_num [exAdaptWeek2]
  rfl

theorem effectiveMode_of_pos (lm : Nat → Option LogEntry) (t : Int) (n : Nat)
    (h1 : 0 < (computeStats lm t n).totalDaysPassed)
    (h2 : 0 < (computeStats lm t n).completedSessions) :
    effectiveMode lm t n =
      selectMode (completionOf (computeStats lm t n)) (avgRPEOf (computeStats lm t n)) := by
  rw [effectiveMode]
  exact if_neg fun hc => by rcases hc with hc | hc <;> omega

/-! ## Claim C1 -/

/-- Claim C1 (corrected): the Adaptive Rescheduler is not idempotent in
general; whenever its decision is `noChange` (no elapsed day, no completed
session, or a neutral mode), running it twice on the same plan copy equals
running it once, and the copy is unchanged. -/
theorem claim_C1 (lm : Nat → Option LogEntry) (t : Int) (p : Plan)
    (h : effectiveMode lm t p.weeks.length = .noChange) :
    adaptPlan lm t (adaptPlan lm t p) = adaptPlan lm t p ∧ adaptPlan lm t p = p := by
  have h1 := adaptPlan_of_noChange lm t p h
  rw [h1]
  exact ⟨h1, rfl⟩

/-- Claim C1, counterexample: on a two-week all-rest plan with one logged
session (RPE 7) after two elapsed days, one `adaptPlan` run lightens week 2's
mileage from 10 to 9, and a second run lightens it again to 8.1 — so running
twice is not deep-equal to running once. -/
theorem claim_C1_counterexample :
    adaptPlan exLog 1 (adaptPlan exLog 1 exPlan) ≠ adaptPlan exLog 1 exPlan := by
  rw [exAdapt1, exAdapt2]
  intro h
  have h2 := congrArg
    (fun q : Plan => (q.weeks.getD 1 { week := 0, phase := "", mileage := 0, days := [] }).mileage) h
  simp only [exPlanA, exPlanB, List.getD_cons_succ, List.getD_cons_zero] at h2
  norm_num at h2

theorem claim_C1_witness :
    effectiveMode emptyLog 3 exPlan.weeks.length = .noChange ∧
    (adaptPlan emptyLog 3 (adaptPlan emptyLog 3 exPlan) = adaptPlan emptyLog 3 exPlan ∧
      adaptPlan emptyLog 3 exPlan = exPlan) :=
  ⟨by decide, claim_C1 emptyLog 3 exPlan (by decide)⟩

/-! ## Claim C3 -/

def C3Prop (w : Nat) : Prop :=
  (phaseLengths w).baseWeeks + (phaseLengths w).buildWeeks + (phaseLengths w).specificWeeks +
      (phaseLengths w).taperWeeks = (w : Int) ∧
  (phaseLengths w).buildWeeks =
    (w : Int) - (phaseLengths w).baseWeeks - (phaseLengths w).specificWeeks -
      (phaseLengths w).taperWeeks

/-- Claim C3: for every weeksToRace ≥ 1, the four phase counts sum exactly to
weeksToRace, with build computed as weeksToRace minus the other three counts
and accepted as-is even when it is zero or negative. -/
theorem claim_C3 (w : Nat) (h : 1 ≤ w) : C3Prop w := by
  unfold C3Prop phaseLengths
  split_ifs <;> dsimp only <;> constructor <;> omega

theorem claim_C3_witness : 1 ≤ 4 ∧ C3Prop 4 := ⟨by norm_num, claim_C3 4 (by norm_num)⟩

/-! ## Claim C4 -/

def modeOf (lm : Nat → Option LogEntry) (t : Int) (p : Plan) : AdaptMode :=
  selectMode (completionOf (computeStats lm t p.weeks.length))
    (avgRPEOf (computeStats lm t p.weeks.length))

def C4Prop (lm : Nat → Option LogEntry) (t : Int) (p : Plan) : Prop :=
  (modeOf lm t p = .lighten ↔
    (completionOf (computeStats lm t p.weeks.length) < 1 / 2 ∨
      6 ≤ avgRPEOf (computeStats lm t p.weeks.length))) ∧
  (modeOf lm t p ≠ .lighten →
    (modeOf lm t p = .intensify ↔
      (4 / 5 ≤ completionOf (computeStats lm t p.weeks.length) ∧
        avgRPEOf (computeStats lm t p.weeks.length) ≤ 4))) ∧
  (modeOf lm t p = .noChange → adaptPlan lm t p = p)

/-- Claim C4: with positive elapsed days and completed sessions, the mode is
`lighten` iff completionRatio < 0.5 or avgRPE ≥ 6; otherwise `intensify` iff
completionRatio ≥ 0.8 and avgRPE ≤ 4; otherwise the plan is unchanged. -/
theorem claim_C4 (lm : Nat → Option LogEntry) (t : Int) (p : Plan)
    (h1 : 0 < (computeStats lm t p.weeks.length).totalDaysPassed)
    (h2 : 0 < (computeStats lm t p.weeks.length).completedSessions) :
    C4Prop lm t p := by
  unfold C4Prop modeOf
  have hmode := effectiveMode_of_pos lm t p.weeks.length h1 h2
  by_cases hA : completionOf (computeStats lm t p.weeks.length) < 1 / 2 ∨
      6 ≤ avgRPEOf (computeStats lm t p.weeks.length)
  · rw [selectMode, if_pos hA]
    exact ⟨iff_of_true rfl hA, fun hn => absurd rfl hn, fun hc => absurd hc (by decide)⟩
  · by_cases hB : 4 / 5 ≤ completionOf (computeStats lm t p.weeks.length) ∧
        avgRPEOf (computeStats lm t p.weeks.length) ≤ 4
    · rw [selectMode, if_neg hA, if_pos hB]
      exact ⟨iff_of_false (by decide) hA, fun _ => iff_of_true rfl hB,
        fun hc => absurd hc (by decide)⟩
    · rw [selectMode, if_neg hA, if_neg hB]
      refine ⟨iff_of_false (by decide) hA, fun _ => iff_of_false (by decide) hB, fun _ => ?_⟩
      apply adaptPlan_of_noChange
      rw [hmode]
      rw [selectMode, if_neg hA, if_neg hB]

theorem claim_C4_witness :
    0 < (computeStats exLog 1 exPlan.weeks.length).totalDaysPassed ∧
    0 < (computeStats exLog 1 exPlan.weeks.length).completedSessions ∧
    C4Prop exLog 1 exPlan := by
  have hs : computeStats exLog 1 exPlan.weeks.length =
      { lastLoggedWeekIndex := 0, completedSessions := 1, totalDaysPassed := 2,
        totalRPE := 7 } := exStats
  exact ⟨by rw [hs]; norm_num, by rw [hs]; norm_num,
    claim_C4 exLog 1 exPlan (by rw [hs]; norm_num) (by rw [hs]; norm_num)⟩

/-! ## Claim C6 -/

/-- Claim C6: if no logged day falls in the elapsed window (in particular if
the log store is empty or no day has elapsed), the Adaptive Rescheduler
leaves the plan copy unchanged. -/
theorem claim_C6 (lm : Nat → Option LogEntry) (t : Int) (p : Plan)
    (h : ∀ i, i < numDaysWalked t p.weeks.length → lm i = none) :
    adaptPlan lm t p = p := by
  apply adaptPlan_of_noChange
  rw [effectiveMode, computeStats_all_none lm t _ h]
  simp

theorem claim_C6_witness :
    (∀ i, i < numDaysWalked 3 exPlan.weeks.length → emptyLog i = none) ∧
    adaptPlan emptyLog 3 exPlan = exPlan :=
  ⟨by decide, claim_C6 emptyLog 3 exPlan (by decide)⟩

/-! ## Claim C8 -/

def C8Prop (today raceDate : Int) (dist exp : String) : Prop :=
  coerceMiles none = 0 ∧ coerceTrainingDays none = 3 ∧ coerceStrengthFreq none = 1 ∧
  generatePlan today raceDate
      { raceDistance := dist, experience := exp, runningMileage := none,
        trainingDays := none, strengthFrequency := none } =
    generatePlan today raceDate
      { raceDistance := dist, experience := exp, runningMileage := some 0,
        trainingDays := some 3, strengthFrequency := some 1 } ∧
  (generatePlan today raceDate
      { raceDistance := dist, experience := exp, runningMileage := none,
        trainingDays := none, strengthFrequency := none }).weeks.length =
    (weeksBetween today raceDate).toNat

/-- Claim C8: malformed or missing numeric inputs are coerced to the
defaults 0, 3 and 1, and the generator still returns a plan (with one week
entry per week to race) rather than rejecting the request. -/
theorem claim_C8 (today raceDate : Int) (dist exp : String) : C8Prop today raceDate dist exp := by
  refine ⟨by simp [coerceMiles], rfl, rfl, rfl, ?_⟩
  simp [generatePlan, weeklyMilesOf, mileageSeq_length]

/-! ## Claim C9 -/

/-- Claim C9, counterexample: for the exported description of an easy run,
the source trims the prefix before the en dash, so the event summary is
"Easy run", not the literal text preceding the dash, which ends with a
space. -/
theorem claim_C9_counterexample :
    exportSummary easyRunText = "Easy run" ∧
    textBeforeDash easyRunText = "Easy run " ∧
    exportSummary easyRunText ≠ textBeforeDash easyRunText := by
  refine ⟨by decide, by decide, ?_⟩
  decide

/-- Claim C9 (corrected): the event summary is the text preceding the first
en dash (U+2013) of the description with surrounding whitespace trimmed;
when the description has no en dash, or the trimmed preceding text is empty,
the summary is the whole description. -/
theorem claim_C9 (desc : String) :
    (charIdx desc.data enDash = none → exportSummary desc = desc) ∧
    ∀ i, charIdx desc.data enDash = some i →
      (trimChars (desc.data.take i) ≠ [] →
        exportSummary desc = String.mk (trimChars (desc.data.take i))) ∧
      (trimChars (desc.data.take i) = [] → exportSummary desc = desc) := by
  constructor
  · intro h
    rw [exportSummary, h]
  · intro i hi
    constructor
    · intro ht
      have hne : ¬ (String.mk (trimChars (desc.data.take i)) = "") := by
        intro hmk
        exact ht (by simpa using congrArg String.data hmk)
      rw [exportSummary, hi]
      exact if_neg hne
    · intro ht
      rw [exportSummary, hi]
      refine if_pos ?_
      rw [ht]

theorem claim_C9_witness :
    charIdx raceSpecificText.data enDash = some 18 ∧
    exportSummary raceSpecificText = "Race‑specific run" := by
  refine ⟨by decide, ?_⟩
  have h := ((claim_C9 raceSpecificText).2 18 (by decide)).1 (by decide)
  rw [h]
  decide

/-! ## Claim C10 -/

def C10Prop (today raceDate : Int) (dist exp : String) (m : Option ℚ)
    (td sf : Option Int) : Prop :=
  generatePlan today raceDate
      { raceDistance := dist, experience := exp, runningMileage := m,
        trainingDays := some 0, strengthFrequency := sf } =
    generatePlan today raceDate
      { raceDistance := dist, experience := exp, runningMileage := m,
        trainingDays := some 3, strengthFrequency := sf } ∧
  generatePlan today raceDate
      { raceDistance := dist, experience := exp, runningMileage := m,
        trainingDays := td, strengthFrequency := some 0 } =
    generatePlan today raceDate
      { raceDistance := dist, experience := exp, runningMileage := m,
        trainingDays := td, strengthFrequency := some 1 }

/-- Claim C10: a supplied value of 0 for trainingDays or strengthFrequency is
indistinguishable from a malformed one under the falsy-default coercion, so
the generator produces exactly the plan it would produce for 3 or 1
respectively. -/
theorem claim_C10 (today raceDate : Int) (dist exp : String) (m : Option ℚ)
    (td sf : Option Int) : C10Prop today raceDate dist exp m td sf :=
  ⟨rfl, rfl⟩

/-! ## Claim C2 -/

def C2Prop (data : AthleteInput) (today raceDate : Int) : Prop :=
  (weeklyMilesOf data (weeksBetween today raceDate).toNat).length =
      (weeksBetween today raceDate).toNat ∧
  List.Chain' (· ≤ ·) (weeklyMilesOf data (weeksBetween today raceDate).toNat) ∧
  (∀ x ∈ weeklyMilesOf data (weeksBetween today raceDate).toNat,
      x ≤ max (coerceMiles data.runningMileage * peakMultiplier data.raceDistance) 10) ∧
  peakMultiplier "5k" = 3 / 2 ∧ peakMultiplier "10k" = 9 / 5 ∧
  peakMultiplier "21k" = 11 / 5 ∧ peakMultiplier "ultra" = 3

/-- Claim C2: the weekly mileage sequence has exactly weeksToRace values, is
monotone non-decreasing, and never exceeds max(startMileage × multiplier, 10)
with multiplier 1.5/1.8/2.2/3.0 for 5k/10k/21k/ultra. -/
theorem claim_C2 (data : AthleteInput) (today raceDate : Int) : C2Prop data today raceDate := by
  unfold C2Prop weeklyMilesOf
  have h0 : (0 : ℚ) ≤ coerceMiles data.runningMileage := by
    rw [coerceMiles]; exact le_max_left _ _
  have hm1 : 1 ≤ peakMultiplier data.raceDistance := by
    unfold peakMultiplier; split_ifs <;> norm_num
  have hr : 0 ≤ growthRate data.experience := by
    unfold growthRate; split_ifs <;> norm_num
  have hpk : coerceMiles data.runningMileage ≤
      max (coerceMiles data.runningMileage * peakMultiplier data.raceDistance) 10 :=
    le_max_of_le_left (le_mul_of_one_le_right h0 hm1)
  have hp0 : (0 : ℚ) ≤ max (coerceMiles data.runningMileage * peakMultiplier data.raceDistance) 10 :=
    le_trans h0 hpk
  refine ⟨mileageSeq_length _ _ _ _, mileageSeq_chain _ _ hr _ _ h0 hpk,
    mileageSeq_le_peak _ _ hr hp0 _ _ h0 hpk, ?_, ?_, ?_, ?_⟩ <;> simp [peakMultiplier]

/-! ## Claim C5 -/

def C5Prop (lm : Nat → Option LogEntry) (t : Int) (p : Plan) (w : Nat) : Prop :=
  (adaptPlan lm t p).weeks.length = p.weeks.length ∧
  ((w : Int) ≤ (computeStats lm t p.weeks.length).lastLoggedWeekIndex →
      (adaptPlan lm t p).weeks[w]? = p.weeks[w]?) ∧
  ((computeStats lm t p.weeks.length).lastLoggedWeekIndex < (w : Int) →
      ∀ wk, p.weeks[w]? = some wk →
        (adaptPlan lm t p).weeks[w]? = some
          { week := wk.week, phase := wk.phase,
            mileage := roundTo1 (wk.mileage * modeFactor (effectiveMode lm t p.weeks.length)),
            days := replFirst (modeTest (effectiveMode lm t p.weeks.length))
              (modeRepl (effectiveMode lm t p.weeks.length)) wk.days } ∧
        countDiff (replFirst (modeTest (effectiveMode lm t p.weeks.length))
            (modeRepl (effectiveMode lm t p.weeks.length)) wk.days) wk.days ≤ 1 ∧
        ((∀ d ∈ wk.days, modeTest (effectiveMode lm t p.weeks.length) d = false) →
          replFirst (modeTest (effectiveMode lm t p.weeks.length))
              (modeRepl (effectiveMode lm t p.weeks.length)) wk.days = wk.days))

/-- Claim C5: when the rescheduler adapts a plan, every week strictly after
lastLoggedWeekIndex gets its mileage scaled by the mode factor (0.9 or 1.1)
rounded to one decimal and at most one day description changed (the first
matching the mode's pattern; none when no day matches), while every week at
or before lastLoggedWeekIndex is left unchanged. -/
theorem claim_C5 (lm : Nat → Option LogEntry) (t : Int) (p : Plan) (w : Nat)
    (h : effectiveMode lm t p.weeks.length ≠ .noChange) : C5Prop lm t p w := by
  have hplan : adaptPlan lm t p =
      { p with
          weeks := adaptWeeks (effectiveMode lm t p.weeks.length)
            (computeStats lm t p.weeks.length).lastLoggedWeekIndex 0 p.weeks } := by
    rw [adaptPlan_eq_modeCase, if_neg h]
  unfold C5Prop
  rw [hplan]
  dsimp only
  refine ⟨adaptWeeks_length _ _ _ _, ?_, ?_⟩
  · intro hle
    rw [adaptWeeks_getElem?]
    cases hw : p.weeks[w]? with
    | none => rfl
    | some wk =>
      simp only [Option.map_some']
      rw [if_neg (by omega)]
  · intro hgt wk hwk
    rw [adaptWeeks_getElem?, hwk]
    simp only [Option.map_some']
    rw [if_pos (by omega)]
    refine ⟨?_, countDiff_replFirst _ _ _, replFirst_no_match _ _ _⟩
    rw [adaptWeek, substituteDays_false]

theorem claim_C5_witness :
    effectiveMode exLog 1 exPlan.weeks.length ≠ .noChange ∧ C5Prop exLog 1 exPlan 1 :=
  ⟨by rw [show exPlan.weeks.length = 2 from rfl, exModeEval]; decide,
   claim_C5 exLog 1 exPlan 1 (by rw [show exPlan.weeks.length = 2 from rfl, exModeEval]; decide)⟩

/-! ## Claim C7 -/

theorem runDaysOf_one : runDaysOf 1 = 1 :=
  runDaysOf_eval 1 1 (by norm_num) (by norm_num) (by norm_num)

theorem runDaysOf_two : runDaysOf 2 = 1 :=
  runDaysOf_eval 2 1 (by norm_num) (by norm_num) (by norm_num)

theorem runDaysOf_three : runDaysOf 3 = 2 :=
  runDaysOf_eval 3 2 (by norm_num) (by norm_num) (by norm_num)

theorem runDaysOf_four : runDaysOf 4 = 2 :=
  runDaysOf_eval 4 2 (by norm_num) (by norm_num) (by norm_num)

theorem runDaysOf_five : runDaysOf 5 = 3 :=
  runDaysOf_eval 5 3 (by norm_num) (by norm_num) (by norm_num)

theorem runDaysOf_six : runDaysOf 6 = 4 :=
  runDaysOf_eval 6 4 (by norm_num) (by norm_num) (by norm_num)

theorem runDaysOf_seven : runDaysOf 7 = 4 :=
  runDaysOf_eval 7 4 (by norm_num) (by norm_num) (by norm_num)

theorem phaseOf_mem (c : PhaseCounts) (w : Nat) :
    phaseOf c w ∈ (["Base", "Build", "Specific", "Taper"] : List String) := by
  unfold phaseOf
  split_ifs <;> simp

def C7Core (phase : String) (td sf : Int) : Prop :=
  (assignWeekDays phase td sf).length = 7 ∧
  (assignWeekDays phase td sf).count (generateRunDesc true phase) =
    (if 4 ≤ td then 1 else 0) ∧
  (4 ≤ td → (assignWeekDays phase td sf).head? = some (generateRunDesc true phase))

def C7Prop (phase : String) (td sf : Int) : Prop :=
  C7Core phase td sf ∧
  ∀ c w, phaseOf c w ∈ (["Base", "Build", "Specific", "Taper"] : List String)

/-- Claim C7: for 1 ≤ trainingDays ≤ 7 each generated week has exactly one
hard-run day when trainingDays ≥ 4 and zero otherwise, the hard run sitting
on the first run day (Monday); every generated phase is one of the four the
claim ranges over. -/
theorem claim_C7 (phase : String) (td sf : Int)
    (hphase : phase ∈ (["Base", "Build", "Specific", "Taper"] : List String))
    (h1 : 1 ≤ td) (h2 : td ≤ 7) (h3 : 0 ≤ sf) : C7Prop phase td sf := by
  refine ⟨?_, fun c w => phaseOf_mem c w⟩
  fin_cases hphase <;>
    (unfold C7Core assignWeekDays
     rcases le_or_lt sf 3 with hsf | hsf
     · interval_cases sf <;> interval_cases td <;>
         simp only [runDaysOf_one, runDaysOf_two, runDaysOf_three, runDaysOf_four,
           runDaysOf_five, runDaysOf_six, runDaysOf_seven] <;> decide
     · have e0 : min sf (0 : Int) = 0 := min_eq_right (by omega)
       have e1 : min sf (1 : Int) = 1 := min_eq_right (by omega)
       have e2 : min sf (2 : Int) = 2 := min_eq_right (by omega)
       have e3 : min sf (3 : Int) = 3 := min_eq_right (by omega)
       interval_cases td <;>
         simp only [runDaysOf_one, runDaysOf_two, runDaysOf_three, runDaysOf_four,
           runDaysOf_five, runDaysOf_six, runDaysOf_seven] <;>
         norm_num [e0, e1, e2, e3] <;> decide)

theorem claim_C7_witness :
    (("Base" : String) ∈ (["Base", "Build", "Specific", "Taper"] : List String)) ∧
    (1 : Int) ≤ 4 ∧ (4 : Int) ≤ 7 ∧ (0 : Int) ≤ 1 ∧ C7Prop "Base" 4 1 :=
  ⟨by decide, by decide, by decide, by decide, claim_C7 "Base" 4 1 (by decide) (by decide)
    (by decide) (by decide)⟩

/-- The scenario athlete of the specification: 10k, intermediate, 10 miles,
4 training days, 1 strength session. -/
def exInput : AthleteInput :=
  { raceDistance := "10k", experience := "intermediate", runningMileage := some 10,
    trainingDays := some 4, strengthFrequency := some 1 }

theorem claim_C2_witness : C2Prop exInput 0 msPerWeek := claim_C2 exInput 0 msPerWeek

theorem claim_C8_witness : C8Prop 0 msPerWeek "10k" "intermediate" :=
  claim_C8 0 msPerWeek "10k" "intermediate"

theorem claim_C10_witness :
    C10Prop 0 msPerWeek "10k" "intermediate" (some 10) (some 4) (some 1) :=
  claim_C10 0 msPerWeek "10k" "intermediate" (some 10) (some 4) (some 1)
